import Mathlib

/-!
Verification development for the `py-sony-bravia-remote` library
(`sonybraviaremote/tv.py`, `sonybraviaremote/tvconfig.py`).

The Python code is shallowly embedded as follows:

* JSON values (`response.json()` results and request payloads) are the
  inductive `JValue`.
* Python exceptions that the code can raise are the inductive `PyError`
  (`RuntimeError`, `KeyError`, `IndexError`, `TypeError`, and the
  `ValueError` raised by `response.json()` on a non-JSON body).
* The HTTP layer (`requests.post`) is an oracle `Device : HttpRequest →
  HttpResponse`; every function that performs I/O takes the oracle and
  additionally returns the trace of observable events (outbound requests
  and invocations of the pairing-challenge callback) it produced.
* Python dictionaries keyed by JSON values are association lists with
  last-write-wins lookup (`PyDict`, `dictGet`).
-/

set_option autoImplicit false
set_option maxRecDepth 200000

/-- A JSON value, as produced by `response.json()` / consumed by `json.dumps`. -/
inductive JValue where
  | jnull : JValue
  | jbool : Bool → JValue
  | jnum : Int → JValue
  | jstr : String → JValue
  | jarr : List JValue → JValue
  | jobj : List (String × JValue) → JValue

mutual

/-- Decidable equality of JSON values (the automatic deriving handler does
not support this nested inductive). -/
def JValue.decEq : (a b : JValue) → Decidable (a = b)
  | .jnull, .jnull => isTrue rfl
  | .jnull, .jbool _ => isFalse (fun h => nomatch h)
  | .jnull, .jnum _ => isFalse (fun h => nomatch h)
  | .jnull, .jstr _ => isFalse (fun h => nomatch h)
  | .jnull, .jarr _ => isFalse (fun h => nomatch h)
  | .jnull, .jobj _ => isFalse (fun h => nomatch h)
  | .jbool _, .jnull => isFalse (fun h => nomatch h)
  | .jbool a, .jbool b =>
    if h : a = b then isTrue (by rw [h]) else isFalse (fun hh => h (JValue.jbool.inj hh))
  | .jbool _, .jnum _ => isFalse (fun h => nomatch h)
  | .jbool _, .jstr _ => isFalse (fun h => nomatch h)
  | .jbool _, .jarr _ => isFalse (fun h => nomatch h)
  | .jbool _, .jobj _ => isFalse (fun h => nomatch h)
  | .jnum _, .jnull => isFalse (fun h => nomatch h)
  | .jnum _, .jbool _ => isFalse (fun h => nomatch h)
  | .jnum a, .jnum b =>
    if h : a = b then isTrue (by rw [h]) else isFalse (fun hh => h (JValue.jnum.inj hh))
  | .jnum _, .jstr _ => isFalse (fun h => nomatch h)
  | .jnum _, .jarr _ => isFalse (fun h => nomatch h)
  | .jnum _, .jobj _ => isFalse (fun h => nomatch h)
  | .jstr _, .jnull => isFalse (fun h => nomatch h)
  | .jstr _, .jbool _ => isFalse (fun h => nomatch h)
  | .jstr _, .jnum _ => isFalse (fun h => nomatch h)
  | .jstr a, .jstr b =>
    if h : a = b then isTrue (by rw [h]) else isFalse (fun hh => h (JValue.jstr.inj hh))
  | .jstr _, .jarr _ => isFalse (fun h => nomatch h)
  | .jstr _, .jobj _ => isFalse (fun h => nomatch h)
  | .jarr _, .jnull => isFalse (fun h => nomatch h)
  | .jarr _, .jbool _ => isFalse (fun h => nomatch h)
  | .jarr _, .jnum _ => isFalse (fun h => nomatch h)
  | .jarr _, .jstr _ => isFalse (fun h => nomatch h)
  | .jarr a, .jarr b =>
    match JValue.decEqList a b with
    | isTrue h => isTrue (by rw [h])
    | isFalse h => isFalse (fun hh => h (JValue.jarr.inj hh))
  | .jarr _, .jobj _ => isFalse (fun h => nomatch h)
  | .jobj _, .jnull => isFalse (fun h => nomatch h)
  | .jobj _, .jbool _ => isFalse (fun h => nomatch h)
  | .jobj _, .jnum _ => isFalse (fun h => nomatch h)
  | .jobj _, .jstr _ => isFalse (fun h => nomatch h)
  | .jobj _, .jarr _ => isFalse (fun h => nomatch h)
  | .jobj a, .jobj b =>
    match JValue.decEqObj a b with
    | isTrue h => isTrue (by rw [h])
    | isFalse h => isFalse (fun hh => h (JValue.jobj.inj hh))

/-- Decidable equality of lists of JSON values. -/
def JValue.decEqList : (a b : List JValue) → Decidable (a = b)
  | [], [] => isTrue rfl
  | [], _ :: _ => isFalse (fun h => nomatch h)
  | _ :: _, [] => isFalse (fun h => nomatch h)
  | a :: as, b :: bs =>
    match JValue.decEq a b, JValue.decEqList as bs with
    | isTrue h1, isTrue h2 => isTrue (by rw [h1, h2])
    | isFalse h1, _ => isFalse (fun hh => h1 (List.cons.inj hh).1)
    | _, isFalse h2 => isFalse (fun hh => h2 (List.cons.inj hh).2)

/-- Decidable equality of lists of string-keyed JSON entries. -/
def JValue.decEqObj : (a b : List (String × JValue)) → Decidable (a = b)
  | [], [] => isTrue rfl
  | [], _ :: _ => isFalse (fun h => nomatch h)
  | _ :: _, [] => isFalse (fun h => nomatch h)
  | (k1, v1) :: ps, (k2, v2) :: qs =>
    match String.decEq k1 k2, JValue.decEq v1 v2, JValue.decEqObj ps qs with
    | isTrue h1, isTrue h2, isTrue h3 => isTrue (by rw [h1, h2, h3])
    | isFalse h1, _, _ => isFalse (fun hh => h1 (congrArg Prod.fst (List.cons.inj hh).1))
    | _, isFalse h2, _ => isFalse (fun hh => h2 (congrArg Prod.snd (List.cons.inj hh).1))
    | _, _, isFalse h3 => isFalse (fun hh => h3 (List.cons.inj hh).2)

end

instance : DecidableEq JValue := JValue.decEq

instance {e a : Type} [DecidableEq e] [DecidableEq a] : DecidableEq (Except e a)
  | .ok x, .ok y =>
    if h : x = y then isTrue (by rw [h]) else isFalse (fun hh => h (Except.ok.inj hh))
  | .ok _, .error _ => isFalse (fun h => nomatch h)
  | .error _, .ok _ => isFalse (fun h => nomatch h)
  | .error x, .error y =>
    if h : x = y then isTrue (by rw [h]) else isFalse (fun hh => h (Except.error.inj hh))

/-- An HTTP response as observed by the code through the `requests` library:
the status code, the response headers, the raw body (read as `response.body`
in the error paths), and the parsed JSON body that `response.json()` returns
(`none` models a body that is not valid JSON, on which `response.json()`
raises `ValueError`). -/
structure HttpResponse where
  status_code : Nat
  headers : List (String × String)
  body : String
  jsonBody : Option JValue
deriving DecidableEq

/-- The Python exceptions reachable from the embedded code. `runtimeErrorStr`
is `RuntimeError` carrying a string payload (an error message or the
response body), `runtimeErrorResp` is the `RuntimeError(response)` raised by
`_send_irc_code`, which carries the whole response object. -/
inductive PyError where
  | runtimeErrorStr : String → PyError
  | runtimeErrorResp : HttpResponse → PyError
  | keyError : String → PyError
  | indexError : PyError
  | typeError : PyError
  | valueError : PyError
deriving DecidableEq

/-- A Python `dict` whose keys and values are JSON values: an association
list where a later binding for the same key overrides an earlier one. -/
abbrev PyDict : Type := List (JValue × JValue)

/-- Python `d[k]` for a dict: the value of the last binding of `k`, if any. -/
def dictGet (d : PyDict) (k : JValue) : Option JValue :=
  (List.find? (fun p => p.1 == k) (List.reverse d)).map (fun p => p.2)

/-- Python subscripting `x[k]` with a string key: a `KeyError` when the key is
absent from a dict, a `TypeError` when `x` is not a dict (lists and strings
reject string indices; numbers, booleans and null are not subscriptable). -/
def pySubscriptKey : JValue → String → Except PyError JValue
  | .jobj kvs, k =>
    match List.find? (fun p => p.1 == k) kvs with
    | some p => .ok p.2
    | none => .error (.keyError k)
  | _, _ => .error .typeError

/-- Python subscripting `x[i]` with a non-negative integer index: an
`IndexError` past the end of a list, a `TypeError` when `x` is not a list
(dicts raise `KeyError` on integer keys in real Python; no embedded code
path subscripts a dict with an integer). -/
def pySubscriptIdx : JValue → Nat → Except PyError JValue
  | .jarr xs, i =>
    match List.get? xs i with
    | some v => .ok v
    | none => .error .indexError
  | _, _ => .error .typeError

/-- Python iteration `for x in v`: lists yield their elements, strings their
characters, dicts their keys; numbers, booleans and `None` raise `TypeError`. -/
def pyIter : JValue → Except PyError (List JValue)
  | .jarr xs => .ok xs
  | .jstr s => .ok (List.map (fun c => JValue.jstr (String.singleton c)) s.data)
  | .jobj kvs => .ok (List.map (fun p => JValue.jstr p.1) kvs)
  | _ => .error .typeError

/-- Whether a JSON value is hashable in Python (usable as a dict key). -/
def pyHashable : JValue → Bool
  | .jarr _ => false
  | .jobj _ => false
  | _ => true

mutual

/-- Python `repr` of a JSON value (quoting of embedded quotes and control
characters inside strings is not modelled; no embedded code path depends
on it). -/
def pyRepr : JValue → String
  | .jnull => "None"
  | .jbool b => if b then "True" else "False"
  | .jnum n => toString n
  | .jstr s => "\x27" ++ s ++ "\x27"
  | .jarr xs => "[" ++ String.intercalate ", " (pyReprList xs) ++ "]"
  | .jobj kvs => "\x7b" ++ String.intercalate ", " (pyReprObj kvs) ++ "\x7d"

/-- `repr` of the elements of a list. -/
def pyReprList : List JValue → List String
  | [] => []
  | x :: xs => pyRepr x :: pyReprList xs

/-- `repr` of the entries of a dict. -/
def pyReprObj : List (String × JValue) → List String
  | [] => []
  | p :: ps => ("\x27" ++ p.1 ++ "\x27: " ++ pyRepr p.2) :: pyReprObj ps

end

/-- Python `str` of a JSON value, as used by `'%s' % v` formatting. -/
def pyStr : JValue → String
  | .jstr s => s
  | v => pyRepr v

/-- Python truthiness of an optional string (`None` and `''` are falsy);
used for the `if pincode:` and `if auth_key:` tests. -/
def pyTruthy : Option String → Bool
  | none => false
  | some s => s != ""

/-- The device configuration (`tvconfig.py`): the network address and the
client display name under which the controller registers. -/
structure TVConfig where
  host : String
  device_name : String
deriving DecidableEq

/-- The body of an outbound request: `json p` stands for
`data=json.dumps(p)` (the byte-level JSON serialization is not re-modelled),
`raw s` for a literal string body. -/
inductive ReqData where
  | json : JValue → ReqData
  | raw : String → ReqData
deriving DecidableEq

/-- An outbound HTTP POST as issued through `requests.post`: URL, body,
extra headers, and the optional `auth=(user, password)` credential pair. -/
structure HttpRequest where
  url : String
  data : ReqData
  headers : List (String × String)
  auth : Option (String × String)
deriving DecidableEq

/-- The device (together with the network) as an oracle: what
`requests.post` returns for a given request. -/
def Device : Type := HttpRequest → HttpResponse

/-- An observable event of a library call: an outbound HTTP request, or one
invocation of the caller-supplied pairing-challenge callback. -/
inductive NetEvent where
  | req : HttpRequest → NetEvent
  | challenge : NetEvent
deriving DecidableEq

/-- The outbound requests contained in an event trace. -/
def requestsOf (t : List NetEvent) : List HttpRequest :=
  List.filterMap (fun e => match e with | .req r => some r | .challenge => none) t

/-- ASCII lowercasing of a header name. -/
def asciiLower (s : String) : String := ⟨List.map Char.toLower s.data⟩

/-- Case-insensitive header lookup, as done by `response.headers[...]` on
the `requests` library's case-insensitive header dict. -/
def headerGet (hs : List (String × String)) (k : String) : Option String :=
  (List.find? (fun p => asciiLower p.1 == asciiLower k) hs).map (fun p => p.2)

/-- A connected session with a TV (`tv.py` class `TV`): the authentication
cookie, the configuration, and the cached command-code mapping. -/
structure TV where
  auth_key : String
  config : TVConfig
  _irc_codes : PyDict
deriving DecidableEq

/-- The request `TV.irc_codes` posts to the system endpoint asking for the
remote-controller metadata (`tv.py` lines 32-46). -/
def rcInfoRequest (config : TVConfig) : HttpRequest :=
  ⟨"http://" ++ config.host ++ "/sony/system",
   .json (.jobj [("method", .jstr "getRemoteControllerInfo"),
                 ("params", .jarr []),
                 ("id", .jnum 10),
                 ("version", .jstr "1.0")]),
   [("SOAPAction", "urn:schemas-sony-com:service:IRCC:1#X_SendIRCC")],
   none⟩

/-- The request `TV.is_on` posts to the system endpoint asking for the
power status (`tv.py` lines 62-70). -/
def powerRequest (config : TVConfig) : HttpRequest :=
  ⟨"http://" ++ config.host ++ "/sony/system",
   .json (.jobj [("method", .jstr "getPowerStatus"),
                 ("params", .jarr []),
                 ("id", .jnum 10),
                 ("version", .jstr "1.0")]),
   [], none⟩

/-- The registration request `TV._attempt_auth` posts to the access-control
endpoint (`tv.py` lines 158-182). A falsy pincode (`None` or the empty
string, per the `if pincode:` test) attaches no `auth` credential. -/
def authRequest (config : TVConfig) (pincode : Option String) : HttpRequest :=
  ⟨"http://" ++ config.host ++ "/sony/accessControl",
   .json (.jobj [("id", .jnum 13),
                 ("method", .jstr "actRegister"),
                 ("version", .jstr "1.0"),
                 ("params", .jarr [
                    .jobj [("clientid", .jstr (config.device_name ++ ":1")),
                           ("nickname", .jstr config.device_name)],
                    .jarr [.jobj [("clientid", .jstr (config.device_name ++ ":1")),
                                  ("value", .jstr "yes"),
                                  ("nickname", .jstr config.device_name),
                                  ("function", .jstr "WOL")]]])]),
   [],
   if pyTruthy pincode then some ("", pincode.getD "") else none⟩

/-- The part of the SOAP control envelope before the IRCC code
(`tv.py` lines 200-204). -/
def ircEnvelopePre : String :=
  "<?xml version=\"1.0\"?><s:Envelope xmlns:s=\"http://schemas.xmlsoap.org/soap/envelope/\" s:encodingStyle=\"http://schemas.xmlsoap.org/soap/encoding/\"><s:Body><u:X_SendIRCC xmlns:u=\"urn:schemas-sony-com:service:IRCC:1\"><IRCCCode>"

/-- The part of the SOAP control envelope after the IRCC code
(`tv.py` lines 204-207). -/
def ircEnvelopePost : String :=
  "</IRCCCode></u:X_SendIRCC></s:Body></s:Envelope>"

/-- The control request `TV._send_irc_code` posts to the IRCC endpoint:
the SOAP envelope embedding the resolved code `c`, with the session
credential attached as a cookie (`tv.py` lines 199-216). -/
def irccRequest (tv : TV) (c : String) : HttpRequest :=
  ⟨"http://" ++ tv.config.host ++ "/sony/IRCC",
   .raw (ircEnvelopePre ++ c ++ ircEnvelopePost),
   [("Cookie", tv.auth_key),
    ("SOAPAction", "\"urn:schemas-sony-com:service:IRCC:1#X_SendIRCC\"")],
   none⟩

/-- The loop of `TV.irc_codes` (lines 53-55): for each entry, Python first
evaluates `entry['value']` (the right-hand side of the assignment), then
the key expression `entry['name']`, then stores the binding; a non-hashable
name raises `TypeError`. -/
def buildCodes : List JValue → PyDict → Except PyError PyDict
  | [], acc => .ok acc
  | entry :: rest, acc =>
    match pySubscriptKey entry "value" with
    | .error e => .error e
    | .ok v =>
      match pySubscriptKey entry "name" with
      | .error e => .error e
      | .ok n =>
        if pyHashable n then buildCodes rest (acc ++ [(n, v)])
        else .error .typeError

/-- What `TV.irc_codes` does with the discovery response (lines 48-57):
raise `RuntimeError(response.body)` on a non-200 status, otherwise walk
`response.json()['result'][1]` and build the name-to-code dict. -/
def rcResult (response : HttpResponse) : Except PyError PyDict :=
  if response.status_code ≠ 200 then .error (.runtimeErrorStr response.body)
  else
    match response.jsonBody with
    | none => .error .valueError
    | some original_data =>
      match pySubscriptKey original_data "result" with
      | .error e => .error e
      | .ok r =>
        match pySubscriptIdx r 1 with
        | .error e => .error e
        | .ok second =>
          match pyIter second with
          | .error e => .error e
          | .ok entries => buildCodes entries []

/-- The extraction `data['result'][0]['status']` performed by `TV.is_on`
(line 76). -/
def powerStatusField (data : JValue) : Except PyError JValue :=
  match pySubscriptKey data "result" with
  | .error e => .error e
  | .ok r =>
    match pySubscriptIdx r 0 with
    | .error e => .error e
    | .ok entry => pySubscriptKey entry "status"

/-- What `TV.is_on` does with the power-status response (lines 72-76):
raise `RuntimeError(response.body)` on a non-200 status, otherwise compare
`data['result'][0]['status']` with the string `'active'`. -/
def powerResult (response : HttpResponse) : Except PyError Bool :=
  if response.status_code ≠ 200 then .error (.runtimeErrorStr response.body)
  else
    match response.jsonBody with
    | none => .error .valueError
    | some data =>
      match powerStatusField data with
      | .error e => .error e
      | .ok v => .ok (v == JValue.jstr "active")

/-- What `TV._attempt_auth` does with the registration response (lines
183-186): a non-200 status returns `False` (modelled `none`), a 200 status
returns `response.headers['Set-Cookie']` — raising `KeyError` when that
header is absent. -/
def authResult (response : HttpResponse) : Except PyError (Option String) :=
  if response.status_code ≠ 200 then .ok none
  else
    match headerGet response.headers "Set-Cookie" with
    | some v => .ok (some v)
    | none => .error (.keyError "Set-Cookie")

/-- What `TV._send_irc_code` does with the control response (lines
218-219): raise `RuntimeError(response)` on a non-200 status. -/
def sendResult (response : HttpResponse) : Except PyError Unit :=
  if response.status_code ≠ 200 then .error (.runtimeErrorResp response) else .ok ()

/-- `TV.irc_codes` (`tv.py` lines 21-57), as invoked from `TV.__init__`
with the session's configuration: posts the `getRemoteControllerInfo`
request and builds the name-to-code dict from `result[1]` of the body. -/
def TV.irc_codes (dev : Device) (config : TVConfig) :
    List NetEvent × Except PyError PyDict :=
  ([.req (rcInfoRequest config)], rcResult (dev (rcInfoRequest config)))

/-- `TV.__init__` (`tv.py` lines 13-19): stores the credential and the
configuration and eagerly fetches the command-code mapping; an exception
raised by `irc_codes` propagates and no session is produced. -/
def TV.init (dev : Device) (auth_key : String) (config : TVConfig) :
    List NetEvent × Except PyError TV :=
  ((TV.irc_codes dev config).1,
   Except.map (fun codes => ⟨auth_key, config, codes⟩) (TV.irc_codes dev config).2)

/-- `TV.is_on` (`tv.py` lines 59-76). -/
def TV.is_on (dev : Device) (tv : TV) : List NetEvent × Except PyError Bool :=
  ([.req (powerRequest tv.config)], powerResult (dev (powerRequest tv.config)))

/-- `TV._attempt_auth` (`tv.py` lines 144-186). -/
def TV._attempt_auth (dev : Device) (config : TVConfig) (pincode : Option String) :
    List NetEvent × Except PyError (Option String) :=
  ([.req (authRequest config pincode)], authResult (dev (authRequest config pincode)))

/-- `TV.connect` (`tv.py` lines 113-142): a first registration attempt
without a pincode; if its result is falsy, one invocation of the callback
and a second attempt with the returned pincode; if that result is falsy
too, `RuntimeError('Could not pair with the TV')`. A truthy credential
leads to `TV(auth_key, config)`. -/
def TV.connect (dev : Device) (config : TVConfig) (callback : Unit → String) :
    List NetEvent × Except PyError TV :=
  match TV._attempt_auth dev config none with
  | (e1, .error err) => (e1, .error err)
  | (e1, .ok auth_key) =>
    if pyTruthy auth_key then
      (e1 ++ (TV.init dev (auth_key.getD "") config).1,
       (TV.init dev (auth_key.getD "") config).2)
    else
      match TV._attempt_auth dev config (some (callback ())) with
      | (e2, .error err) => (e1 ++ [.challenge] ++ e2, .error err)
      | (e2, .ok auth_key2) =>
        if pyTruthy auth_key2 then
          (e1 ++ [.challenge] ++ e2 ++ (TV.init dev (auth_key2.getD "") config).1,
           (TV.init dev (auth_key2.getD "") config).2)
        else
          (e1 ++ [.challenge] ++ e2, .error (.runtimeErrorStr "Could not pair with the TV"))

/-- `TV._send_irc_code` (`tv.py` lines 188-219): looks the command name up
in the cached dict — an absent name raises `KeyError` before any request
is sent — then posts the control envelope and checks the status. -/
def TV._send_irc_code (dev : Device) (tv : TV) (code : String) :
    List NetEvent × Except PyError Unit :=
  match dictGet tv._irc_codes (.jstr code) with
  | none => ([], .error (.keyError code))
  | some v =>
    ([.req (irccRequest tv (pyStr v))], sendResult (dev (irccRequest tv (pyStr v))))

/-- The `for _ in range(0, amount)` loops of `volume_up` / `volume_down`:
`n` sequential dispatches, stopped by the first raised exception. -/
def sendRepeat (dev : Device) (tv : TV) (code : String) :
    Nat → List NetEvent × Except PyError Unit
  | 0 => ([], .ok ())
  | n + 1 =>
    match TV._send_irc_code dev tv code with
    | (evs, .error e) => (evs, .error e)
    | (evs, .ok _) =>
      (evs ++ (sendRepeat dev tv code n).1, (sendRepeat dev tv code n).2)

/-- `TV.mute` (`tv.py` line 78). -/
def TV.mute (dev : Device) (tv : TV) : List NetEvent × Except PyError Unit :=
  TV._send_irc_code dev tv "Mute"

/-- `TV.volume_up` (`tv.py` lines 81-83) at an explicit repeat count; a
negative count yields an empty `range`, hence no dispatch. -/
def TV.volume_up (dev : Device) (tv : TV) (amount : Int) :
    List NetEvent × Except PyError Unit :=
  sendRepeat dev tv "VolumeUp" amount.toNat

/-- `TV.volume_up` called without an argument (the `amount=5` default). -/
def TV.volume_up_default (dev : Device) (tv : TV) :
    List NetEvent × Except PyError Unit :=
  TV.volume_up dev tv 5

/-- `TV.volume_down` (`tv.py` lines 85-87) at an explicit repeat count. -/
def TV.volume_down (dev : Device) (tv : TV) (amount : Int) :
    List NetEvent × Except PyError Unit :=
  sendRepeat dev tv "VolumeDown" amount.toNat

/-- `TV.volume_down` called without an argument (the `amount=5` default). -/
def TV.volume_down_default (dev : Device) (tv : TV) :
    List NetEvent × Except PyError Unit :=
  TV.volume_down dev tv 5

/-- `TV.pause` (`tv.py` line 89). -/
def TV.pause (dev : Device) (tv : TV) : List NetEvent × Except PyError Unit :=
  TV._send_irc_code dev tv "Pause"

/-- `TV.play` (`tv.py` line 92). -/
def TV.play (dev : Device) (tv : TV) : List NetEvent × Except PyError Unit :=
  TV._send_irc_code dev tv "Play"

/-- `TV.power_off` (`tv.py` line 95). -/
def TV.power_off (dev : Device) (tv : TV) : List NetEvent × Except PyError Unit :=
  TV._send_irc_code dev tv "PowerOff"

/-- `TV.wake_up` (`tv.py` line 98). -/
def TV.wake_up (dev : Device) (tv : TV) : List NetEvent × Except PyError Unit :=
  TV._send_irc_code dev tv "WakeUp"

/-- `TV.home` (`tv.py` line 101). -/
def TV.home (dev : Device) (tv : TV) : List NetEvent × Except PyError Unit :=
  TV._send_irc_code dev tv "Home"

/-- `TV.netflix` (`tv.py` line 104). -/
def TV.netflix (dev : Device) (tv : TV) : List NetEvent × Except PyError Unit :=
  TV._send_irc_code dev tv "Netflix"

/-- `TV.enter` (`tv.py` line 107). -/
def TV.enter (dev : Device) (tv : TV) : List NetEvent × Except PyError Unit :=
  TV._send_irc_code dev tv "Enter"

/-- `TV.confirm` (`tv.py` line 110). -/
def TV.confirm (dev : Device) (tv : TV) : List NetEvent × Except PyError Unit :=
  TV._send_irc_code dev tv "Confirm"

/-- A fixed configuration used by the concrete scenarios below. -/
def cfgX : TVConfig := ⟨"tv.example", "unit"⟩

/-- A fixed pairing-challenge callback used by the concrete scenarios. -/
def cbX : Unit → String := fun _ => "9999"

/-- A device that accepts every request with an empty 200 response (and, in
particular, never sends a `Set-Cookie` header). -/
def devOkEmpty : Device := fun _ => ⟨200, [], "", none⟩

/-- A device that rejects every request with a 403 status. -/
def devAuthReject : Device := fun _ => ⟨403, [], "", none⟩

/-- A device that fails every request with a 500 status and body `"boom"`. -/
def dev500 : Device := fun _ => ⟨500, [], "boom", none⟩

/-- The example discovery body of the specification:
`{"result": [{}, [{"name": "Mute", "value": "AAAAAQAAAAEAAAAUAw=="}]]}`. -/
def rcBodyMute : JValue :=
  .jobj [("result", .jarr [.jobj [],
    .jarr [.jobj [("name", .jstr "Mute"),
                  ("value", .jstr "AAAAAQAAAAEAAAAUAw==")]]])]

/-- A device that grants registration (cookie `auth=abc`) but fails the
discovery request (and everything else) with a 500 status. -/
def devC3 : Device := fun r =>
  if r.url = "http://tv.example/sony/accessControl"
  then ⟨200, [("Set-Cookie", "auth=abc")], "", none⟩
  else ⟨500, [], "boom", none⟩

/-- A fully cooperative device: registration grants cookie `auth=abc`,
discovery returns the example body, everything else is an empty 200. -/
def devHappy : Device := fun r =>
  if r.url = "http://tv.example/sony/accessControl"
  then ⟨200, [("Set-Cookie", "auth=abc")], "", none⟩
  else if r.url = "http://tv.example/sony/system"
  then ⟨200, [], "", some rcBodyMute⟩
  else ⟨200, [], "", none⟩

/-- A device that rejects anonymous registration with 403 but grants it
(cookie `auth=abc`) when the pairing code `9999` is attached; discovery
succeeds with the example body. -/
def devC4 : Device := fun r =>
  if r.auth = some ("", "9999")
  then ⟨200, [("Set-Cookie", "auth=abc")], "", none⟩
  else if r.url = "http://tv.example/sony/system"
  then ⟨200, [], "", some rcBodyMute⟩
  else ⟨403, [], "", none⟩

/-- Like `devC4`, but the discovery request (like every request without the
pairing code) fails with a 500 status. -/
def devC4bad : Device := fun r =>
  if r.auth = some ("", "9999")
  then ⟨200, [("Set-Cookie", "auth=abc")], "", none⟩
  else ⟨500, [], "boom", none⟩

/-- A device whose power-status response carries the case-variant status
string `"Active"`. -/
def devPowerCase : Device := fun _ =>
  ⟨200, [], "", some (.jobj [("result", .jarr [.jobj [("status", .jstr "Active")]])])⟩

/-- A device whose discovery response is a 200 whose `result[1]` is an empty
JSON object — not a sequence of name/value records. -/
def devC7 : Device := fun _ =>
  ⟨200, [], "", some (.jobj [("result", .jarr [.jobj [], .jobj []])])⟩

/-- A device whose discovery response is a 200 whose JSON body lacks the
`result` key. -/
def devC7noResult : Device := fun _ => ⟨200, [], "", some (.jobj [])⟩

/-- A session whose cached mapping holds only `Mute`. -/
def tvMuteOnly : TV := ⟨"cookie0", cfgX, [(.jstr "Mute", .jstr "CODE0")]⟩

/-- A session built from the specification's example discovery response. -/
def tvC6 : TV := ⟨"session", cfgX, [(.jstr "Mute", .jstr "AAAAAQAAAAEAAAAUAw==")]⟩

/-- A session with an empty cached mapping. -/
def tvEmptyCodes : TV := ⟨"cookie0", cfgX, []⟩

/-- A session whose cached mapping holds the two volume commands. -/
def tvVol : TV :=
  ⟨"ck", cfgX, [(.jstr "VolumeUp", .jstr "VU"), (.jstr "VolumeDown", .jstr "VD")]⟩

/-- C1: for every command name present in the session's cached command-code
mapping, dispatching that command sends exactly one control request, to the
device's IRCC control endpoint, whose embedded IRCC code is the mapping's
value for that name, with the session credential attached as a cookie. -/
theorem irc_dispatch_sends_single_control_request
    (dev : Device) (tv : TV) (name : String) (v : JValue)
    (h : dictGet tv._irc_codes (.jstr name) = some v) :
    (TV._send_irc_code dev tv name).1 = [NetEvent.req (irccRequest tv (pyStr v))]
      ∧ (irccRequest tv (pyStr v)).url = "http://" ++ tv.config.host ++ "/sony/IRCC"
      ∧ (irccRequest tv (pyStr v)).data
          = .raw (ircEnvelopePre ++ pyStr v ++ ircEnvelopePost)
      ∧ headerGet (irccRequest tv (pyStr v)).headers "Cookie" = some tv.auth_key := by
  refine ⟨?_, rfl, rfl, ?_⟩
  · simp [TV._send_irc_code, h]
  · simp [headerGet, irccRequest, List.find?]

/-- C1 witness: the theorem applied to the session `tvMuteOnly`, whose
mapping binds `Mute` to `CODE0`. -/
theorem irc_dispatch_sends_single_control_request_witness :
    (TV._send_irc_code devOkEmpty tvMuteOnly "Mute").1
        = [NetEvent.req (irccRequest tvMuteOnly (pyStr (JValue.jstr "CODE0")))]
      ∧ (irccRequest tvMuteOnly (pyStr (JValue.jstr "CODE0"))).url
          = "http://" ++ tvMuteOnly.config.host ++ "/sony/IRCC"
      ∧ (irccRequest tvMuteOnly (pyStr (JValue.jstr "CODE0"))).data
          = .raw (ircEnvelopePre ++ pyStr (JValue.jstr "CODE0") ++ ircEnvelopePost)
      ∧ headerGet (irccRequest tvMuteOnly (pyStr (JValue.jstr "CODE0"))).headers "Cookie"
          = some tvMuteOnly.auth_key :=
  irc_dispatch_sends_single_control_request devOkEmpty tvMuteOnly "Mute"
    (JValue.jstr "CODE0") rfl

/-- C9: for every command name absent from the session's cached mapping,
dispatch fails without issuing any outbound request, and the failure is the
unhandled `KeyError` lookup fault, not a typed error. -/
theorem irc_dispatch_unknown_command_key_fault
    (dev : Device) (tv : TV) (name : String)
    (h : dictGet tv._irc_codes (.jstr name) = none) :
    TV._send_irc_code dev tv name = ([], .error (.keyError name)) := by
  simp [TV._send_irc_code, h]

/-- C9 witness: the theorem applied to a session with an empty mapping. -/
theorem irc_dispatch_unknown_command_key_fault_witness :
    TV._send_irc_code devOkEmpty tvEmptyCodes "Mute"
      = ([], .error (.keyError "Mute")) :=
  irc_dispatch_unknown_command_key_fault devOkEmpty tvEmptyCodes "Mute" rfl

/-- C5: for every 200 power-status response whose `result[0]['status']`
field extracts to `v`, `is_on` returns the comparison of `v` with the
string `active`, which is true exactly when `v` is the string `active`;
any other string, case variants included, yields false. -/
theorem is_on_true_iff_status_active
    (dev : Device) (tv : TV) (j v : JValue)
    (h200 : (dev (powerRequest tv.config)).status_code = 200)
    (hj : (dev (powerRequest tv.config)).jsonBody = some j)
    (hv : powerStatusField j = .ok v) :
    TV.is_on dev tv
        = ([NetEvent.req (powerRequest tv.config)], .ok (v == JValue.jstr "active"))
      ∧ ((v == JValue.jstr "active") = true ↔ v = JValue.jstr "active")
      ∧ (∀ s : String, s ≠ "active" →
           (JValue.jstr s == JValue.jstr "active") = false) := by
  refine ⟨?_, beq_iff_eq, ?_⟩
  · simp [TV.is_on, powerResult, h200, hj, hv]
  · intro s hs
    rw [beq_eq_false_iff_ne]
    intro hh
    exact hs (JValue.jstr.inj hh)

/-- C5 witness: the theorem applied to a device reporting the case-variant
status string `Active`, on which `is_on` returns false. -/
theorem is_on_true_iff_status_active_witness :
    TV.is_on devPowerCase tvEmptyCodes
        = ([NetEvent.req (powerRequest tvEmptyCodes.config)],
           .ok (JValue.jstr "Active" == JValue.jstr "active"))
      ∧ ((JValue.jstr "Active" == JValue.jstr "active") = true
           ↔ JValue.jstr "Active" = JValue.jstr "active")
      ∧ (∀ s : String, s ≠ "active" →
           (JValue.jstr s == JValue.jstr "active") = false) :=
  is_on_true_iff_status_active devPowerCase tvEmptyCodes
    (.jobj [("result", .jarr [.jobj [("status", .jstr "Active")]])])
    (.jstr "Active") rfl rfl rfl

/-- C2: for every configuration and challenge resolver, if both
registration attempts come back non-successful (each returning a falsy
credential rather than raising), `connect` raises the
`RuntimeError('Could not pair with the TV')` — the AuthenticationError of
the specification — and the trace holds exactly two outbound requests,
both to the access-control endpoint. -/
theorem connect_double_failure_raises_auth_error
    (dev : Device) (config : TVConfig) (cb : Unit → String) (k1 k2 : Option String)
    (h1 : authResult (dev (authRequest config none)) = .ok k1)
    (hk1 : pyTruthy k1 = false)
    (h2 : authResult (dev (authRequest config (some (cb ())))) = .ok k2)
    (hk2 : pyTruthy k2 = false) :
    TV.connect dev config cb
        = ([NetEvent.req (authRequest config none), NetEvent.challenge,
            NetEvent.req (authRequest config (some (cb ())))],
           .error (.runtimeErrorStr "Could not pair with the TV"))
      ∧ requestsOf (TV.connect dev config cb).1
          = [authRequest config none, authRequest config (some (cb ()))]
      ∧ (authRequest config none).url
          = "http://" ++ config.host ++ "/sony/accessControl"
      ∧ (authRequest config (some (cb ()))).url
          = "http://" ++ config.host ++ "/sony/accessControl" := by
  have hc : TV.connect dev config cb
      = ([NetEvent.req (authRequest config none), NetEvent.challenge,
          NetEvent.req (authRequest config (some (cb ())))],
         .error (.runtimeErrorStr "Could not pair with the TV")) := by
    simp [TV.connect, TV._attempt_auth, h1, h2, hk1, hk2]
  refine ⟨hc, ?_, rfl, rfl⟩
  rw [hc]
  simp [requestsOf]

/-- C2 witness: the theorem applied to a device answering 403 to every
registration attempt. -/
theorem connect_double_failure_raises_auth_error_witness :
    TV.connect devAuthReject cfgX cbX
        = ([NetEvent.req (authRequest cfgX none), NetEvent.challenge,
            NetEvent.req (authRequest cfgX (some (cbX ())))],
           .error (.runtimeErrorStr "Could not pair with the TV"))
      ∧ requestsOf (TV.connect devAuthReject cfgX cbX).1
          = [authRequest cfgX none, authRequest cfgX (some (cbX ()))]
      ∧ (authRequest cfgX none).url
          = "http://" ++ cfgX.host ++ "/sony/accessControl"
      ∧ (authRequest cfgX (some (cbX ()))).url
          = "http://" ++ cfgX.host ++ "/sony/accessControl" :=
  connect_double_failure_raises_auth_error devAuthReject cfgX cbX none none
    rfl rfl rfl rfl

/-- C10: a 200 registration response without a `Set-Cookie` header makes
`_attempt_auth` raise the unhandled `KeyError('Set-Cookie')` instead of
returning a credential or the not-yet-authenticated outcome; `connect`
then fails after its first attempt, without invoking the challenge
resolver and without raising the pairing `RuntimeError`. -/
theorem auth_success_without_cookie_key_fault
    (dev : Device) (config : TVConfig) (cb : Unit → String)
    (h200 : (dev (authRequest config none)).status_code = 200)
    (hno : headerGet (dev (authRequest config none)).headers "Set-Cookie" = none) :
    TV._attempt_auth dev config none
        = ([NetEvent.req (authRequest config none)], .error (.keyError "Set-Cookie"))
      ∧ TV.connect dev config cb
        = ([NetEvent.req (authRequest config none)], .error (.keyError "Set-Cookie"))
      ∧ NetEvent.challenge ∉ (TV.connect dev config cb).1
      ∧ (TV.connect dev config cb).2
          ≠ .error (.runtimeErrorStr "Could not pair with the TV") := by
  have ha : authResult (dev (authRequest config none))
      = .error (.keyError "Set-Cookie") := by
    simp [authResult, h200, hno]
  have hc : TV.connect dev config cb
      = ([NetEvent.req (authRequest config none)], .error (.keyError "Set-Cookie")) := by
    simp [TV.connect, TV._attempt_auth, ha]
  refine ⟨by simp [TV._attempt_auth, ha], hc, ?_, ?_⟩
  · rw [hc]
    simp
  · rw [hc]
    simp

/-- C10 witness: the theorem applied to a device answering every request
with an empty 200 response carrying no headers. -/
theorem auth_success_without_cookie_key_fault_witness :
    TV._attempt_auth devOkEmpty cfgX none
        = ([NetEvent.req (authRequest cfgX none)], .error (.keyError "Set-Cookie"))
      ∧ TV.connect devOkEmpty cfgX cbX
        = ([NetEvent.req (authRequest cfgX none)], .error (.keyError "Set-Cookie"))
      ∧ NetEvent.challenge ∉ (TV.connect devOkEmpty cfgX cbX).1
      ∧ (TV.connect devOkEmpty cfgX cbX).2
          ≠ .error (.runtimeErrorStr "Could not pair with the TV") :=
  auth_success_without_cookie_key_fault devOkEmpty cfgX cbX rfl rfl

/-- C3 counterexample: with device `devC3` the first registration attempt
succeeds (the credential cookie `auth=abc` is granted), yet `connect` does
not return a session: the eager discovery request made while constructing
the session fails with a 500 status and the `RuntimeError` propagates. -/
theorem connect_first_success_can_fail_on_discovery :
    authResult (devC3 (authRequest cfgX none)) = .ok (some "auth=abc")
      ∧ TV.connect devC3 cfgX cbX
          = ([NetEvent.req (authRequest cfgX none), NetEvent.req (rcInfoRequest cfgX)],
             .error (.runtimeErrorStr "boom"))
      ∧ (∀ tv : TV, (TV.connect devC3 cfgX cbX).2 ≠ .ok tv) := by
  refine ⟨by decide, by decide, ?_⟩
  intro tv h
  have hc : (TV.connect devC3 cfgX cbX).2 = .error (.runtimeErrorStr "boom") := by decide
  rw [hc] at h
  exact Except.noConfusion h

/-- C3 amended: when the first registration attempt yields a truthy
credential, `connect` never invokes the challenge resolver; it returns the
session built from that credential provided the eager command-code
discovery also succeeds (otherwise the discovery failure propagates). -/
theorem connect_first_success_skips_challenge
    (dev : Device) (config : TVConfig) (cb : Unit → String) (k : String)
    (h1 : authResult (dev (authRequest config none)) = .ok (some k))
    (hk : k ≠ "") :
    TV.connect dev config cb
        = ([NetEvent.req (authRequest config none), NetEvent.req (rcInfoRequest config)],
           (TV.init dev k config).2)
      ∧ NetEvent.challenge ∉ (TV.connect dev config cb).1
      ∧ (∀ codes : PyDict, rcResult (dev (rcInfoRequest config)) = .ok codes →
           (TV.connect dev config cb).2 = .ok ⟨k, config, codes⟩) := by
  have hc : TV.connect dev config cb
      = ([NetEvent.req (authRequest config none), NetEvent.req (rcInfoRequest config)],
         (TV.init dev k config).2) := by
    simp [TV.connect, TV._attempt_auth, h1, pyTruthy, bne_iff_ne, hk, TV.init, TV.irc_codes]
  refine ⟨hc, ?_, ?_⟩
  · rw [hc]
    simp
  · intro codes hcodes
    rw [hc]
    simp [TV.init, TV.irc_codes, hcodes, Except.map]

/-- C3 witness: the amended theorem applied to the fully cooperative device
`devHappy`, together with the session it produces. -/
theorem connect_first_success_skips_challenge_witness :
    (TV.connect devHappy cfgX cbX
        = ([NetEvent.req (authRequest cfgX none), NetEvent.req (rcInfoRequest cfgX)],
           (TV.init devHappy "auth=abc" cfgX).2)
      ∧ NetEvent.challenge ∉ (TV.connect devHappy cfgX cbX).1
      ∧ (∀ codes : PyDict, rcResult (devHappy (rcInfoRequest cfgX)) = .ok codes →
           (TV.connect devHappy cfgX cbX).2 = .ok ⟨"auth=abc", cfgX, codes⟩))
      ∧ (TV.connect devHappy cfgX cbX).2
          = .ok ⟨"auth=abc", cfgX, [(.jstr "Mute", .jstr "AAAAAQAAAAEAAAAUAw==")]⟩ :=
  ⟨connect_first_success_skips_challenge devHappy cfgX cbX "auth=abc"
     (by decide) (by decide),
   (connect_first_success_skips_challenge devHappy cfgX cbX "auth=abc"
     (by decide) (by decide)).2.2
     [(.jstr "Mute", .jstr "AAAAAQAAAAEAAAAUAw==")] (by decide)⟩

/-- C4 counterexample: with device `devC4bad` the first registration
attempt fails, the second one (carrying the pairing code `9999` returned
by the resolver) succeeds, yet `connect` does not return a session: the
eager discovery request fails with a 500 status and the `RuntimeError`
propagates. -/
theorem connect_second_success_can_fail_on_discovery :
    authResult (devC4bad (authRequest cfgX none)) = .ok none
      ∧ authResult (devC4bad (authRequest cfgX (some (cbX ())))) = .ok (some "auth=abc")
      ∧ TV.connect devC4bad cfgX cbX
          = ([NetEvent.req (authRequest cfgX none), NetEvent.challenge,
              NetEvent.req (authRequest cfgX (some "9999")),
              NetEvent.req (rcInfoRequest cfgX)],
             .error (.runtimeErrorStr "boom"))
      ∧ (∀ tv : TV, (TV.connect devC4bad cfgX cbX).2 ≠ .ok tv) := by
  refine ⟨by decide, by decide, by decide, ?_⟩
  intro tv h
  have hc : (TV.connect devC4bad cfgX cbX).2 = .error (.runtimeErrorStr "boom") := by decide
  rw [hc] at h
  exact Except.noConfusion h

/-- C4 amended: when the first registration attempt yields a falsy result
and the second attempt — carrying the pincode returned by the resolver —
yields a truthy credential, `connect` invokes the challenge resolver
exactly once; it returns the session built from that credential provided
the eager command-code discovery also succeeds. -/
theorem connect_second_success_single_challenge
    (dev : Device) (config : TVConfig) (cb : Unit → String)
    (k1 : Option String) (k : String)
    (h1 : authResult (dev (authRequest config none)) = .ok k1)
    (hk1 : pyTruthy k1 = false)
    (h2 : authResult (dev (authRequest config (some (cb ())))) = .ok (some k))
    (hk : k ≠ "") :
    TV.connect dev config cb
        = ([NetEvent.req (authRequest config none), NetEvent.challenge,
            NetEvent.req (authRequest config (some (cb ()))),
            NetEvent.req (rcInfoRequest config)],
           (TV.init dev k config).2)
      ∧ List.count NetEvent.challenge (TV.connect dev config cb).1 = 1
      ∧ (∀ codes : PyDict, rcResult (dev (rcInfoRequest config)) = .ok codes →
           (TV.connect dev config cb).2 = .ok ⟨k, config, codes⟩) := by
  have hc : TV.connect dev config cb
      = ([NetEvent.req (authRequest config none), NetEvent.challenge,
          NetEvent.req (authRequest config (some (cb ()))),
          NetEvent.req (rcInfoRequest config)],
         (TV.init dev k config).2) := by
    have hks : pyTruthy (some k) = true := by
      simp only [pyTruthy, bne_iff_ne, ne_eq]
      simpa using hk
    simp [TV.connect, TV._attempt_auth, h1, hk1, h2, hks, TV.init, TV.irc_codes]
  refine ⟨hc, ?_, ?_⟩
  · rw [hc]
    simp [List.count_cons]
  · intro codes hcodes
    rw [hc]
    simp [TV.init, TV.irc_codes, hcodes, Except.map]

/-- C4 witness: the amended theorem applied to the device `devC4`, which
rejects anonymous registration and accepts the pairing code `9999`,
together with the session produced. -/
theorem connect_second_success_single_challenge_witness :
    (TV.connect devC4 cfgX cbX
        = ([NetEvent.req (authRequest cfgX none), NetEvent.challenge,
            NetEvent.req (authRequest cfgX (some (cbX ()))),
            NetEvent.req (rcInfoRequest cfgX)],
           (TV.init devC4 "auth=abc" cfgX).2)
      ∧ List.count NetEvent.challenge (TV.connect devC4 cfgX cbX).1 = 1
      ∧ (∀ codes : PyDict, rcResult (devC4 (rcInfoRequest cfgX)) = .ok codes →
           (TV.connect devC4 cfgX cbX).2 = .ok ⟨"auth=abc", cfgX, codes⟩))
      ∧ (TV.connect devC4 cfgX cbX).2
          = .ok ⟨"auth=abc", cfgX, [(.jstr "Mute", .jstr "AAAAAQAAAAEAAAAUAw==")]⟩ :=
  ⟨connect_second_success_single_challenge devC4 cfgX cbX none "auth=abc"
     (by decide) (by decide) (by decide) (by decide),
   (connect_second_success_single_challenge devC4 cfgX cbX none "auth=abc"
     (by decide) (by decide) (by decide) (by decide)).2.2
     [(.jstr "Mute", .jstr "AAAAAQAAAAEAAAAUAw==")] (by decide)⟩

/-- Looking the `value` field up in a two-field name/value record. -/
theorem subscriptKey_record_value (n v : JValue) :
    pySubscriptKey (JValue.jobj [("name", n), ("value", v)]) "value" = .ok v := rfl

/-- Looking the `name` field up in a two-field name/value record. -/
theorem subscriptKey_record_name (n v : JValue) :
    pySubscriptKey (JValue.jobj [("name", n), ("value", v)]) "name" = .ok n := rfl

/-- The discovery loop over a list of string name/value records extends the
accumulator with one binding per record, in order. -/
theorem buildCodes_records (L : List (String × String)) (acc : PyDict) :
    buildCodes
        (List.map (fun p => JValue.jobj [("name", JValue.jstr p.1),
                                         ("value", JValue.jstr p.2)]) L) acc
      = .ok (acc ++ List.map (fun p => (JValue.jstr p.1, JValue.jstr p.2)) L) := by
  induction L generalizing acc with
  | nil => simp [buildCodes]
  | cons p rest ih =>
    simp only [List.map_cons, buildCodes, subscriptKey_record_value,
               subscriptKey_record_name, pyHashable, if_true]
    rw [ih]
    simp

/-- C6: for every 200 discovery response whose `result[1]` is a list of
name/value records, `irc_codes` builds the mapping binding each record's
name to its value; in particular, on the specification's example response
the session maps `Mute` to `AAAAAQAAAAEAAAAUAw==`, and `mute()` posts a
control envelope embedding exactly that code string. -/
theorem irc_codes_builds_mapping_from_result_records :
    (∀ (dev : Device) (config : TVConfig) (j r : JValue) (L : List (String × String)),
       (dev (rcInfoRequest config)).status_code = 200 →
       (dev (rcInfoRequest config)).jsonBody = some j →
       pySubscriptKey j "result" = .ok r →
       pySubscriptIdx r 1
         = .ok (.jarr (List.map (fun p => JValue.jobj [("name", JValue.jstr p.1),
                                                       ("value", JValue.jstr p.2)]) L)) →
       TV.irc_codes dev config
         = ([NetEvent.req (rcInfoRequest config)],
            .ok (List.map (fun p => (JValue.jstr p.1, JValue.jstr p.2)) L)))
      ∧ (TV.init devHappy "session" cfgX).2 = .ok tvC6
      ∧ dictGet tvC6._irc_codes (JValue.jstr "Mute")
          = some (JValue.jstr "AAAAAQAAAAEAAAAUAw==")
      ∧ TV.mute devHappy tvC6
          = ([NetEvent.req (irccRequest tvC6 "AAAAAQAAAAEAAAAUAw==")], .ok ())
      ∧ (irccRequest tvC6 "AAAAAQAAAAEAAAAUAw==").data
          = .raw (ircEnvelopePre ++ "AAAAAQAAAAEAAAAUAw==" ++ ircEnvelopePost) := by
  refine ⟨?_, by decide, by decide, by decide, by decide⟩
  intro dev config j r L h200 hj hr hidx
  simp [TV.irc_codes, rcResult, h200, hj, hr, hidx, pyIter, buildCodes_records]

/-- C6 witness: the universal part of the theorem applied to the device
`devHappy` and the specification's example discovery response. -/
theorem irc_codes_builds_mapping_from_result_records_witness :
    TV.irc_codes devHappy cfgX
      = ([NetEvent.req (rcInfoRequest cfgX)],
         .ok (List.map (fun p => (JValue.jstr p.1, JValue.jstr p.2))
                [("Mute", "AAAAAQAAAAEAAAAUAw==")])) :=
  irc_codes_builds_mapping_from_result_records.1 devHappy cfgX rcBodyMute
    (.jarr [.jobj [], .jarr [.jobj [("name", .jstr "Mute"),
                                    ("value", .jstr "AAAAAQAAAAEAAAAUAw==")]]])
    [("Mute", "AAAAAQAAAAEAAAAUAw==")] (by decide) (by decide) (by decide) (by decide)

/-- C7 counterexample: a 200 discovery response whose `result[1]` is an
empty JSON object is not a sequence of name/value records, yet `irc_codes`
does not fail at all — iterating the empty mapping yields an empty
command-code dict. -/
theorem irc_codes_absent_structure_no_failure :
    TV.irc_codes devC7 cfgX
      = ([NetEvent.req (rcInfoRequest cfgX)], .ok ([] : PyDict)) := by
  decide

/-- C7 amended: discovery raises `RuntimeError(response.body)` — the
specification's ProtocolError — when the HTTP status is not 200; on a 200
status no typed ParseError exists: a failure to extract the `result` field
propagates the underlying lookup fault, which is `KeyError('result')` on a
JSON object lacking the key and `TypeError` on non-object bodies (and some
malformed bodies, as the counterexample shows, do not fail at all). -/
theorem irc_codes_failure_modes (dev : Device) (config : TVConfig) :
    ((dev (rcInfoRequest config)).status_code ≠ 200 →
       TV.irc_codes dev config
         = ([NetEvent.req (rcInfoRequest config)],
            .error (.runtimeErrorStr (dev (rcInfoRequest config)).body)))
      ∧ (∀ (j : JValue) (e : PyError),
           (dev (rcInfoRequest config)).status_code = 200 →
           (dev (rcInfoRequest config)).jsonBody = some j →
           pySubscriptKey j "result" = .error e →
           TV.irc_codes dev config
             = ([NetEvent.req (rcInfoRequest config)], .error e))
      ∧ (∀ (j : JValue) (e : PyError),
           pySubscriptKey j "result" = .error e →
           e = .keyError "result" ∨ e = .typeError) := by
  refine ⟨?_, ?_, ?_⟩
  · intro h
    simp [TV.irc_codes, rcResult, h]
  · intro j e h200 hj he
    simp [TV.irc_codes, rcResult, h200, hj, he]
  · intro j e he
    cases j with
    | jobj kvs =>
      cases hf : List.find? (fun p => p.1 == "result") kvs with
      | some p =>
        simp only [pySubscriptKey, hf] at he
        exact Except.noConfusion he
      | none =>
        simp only [pySubscriptKey, hf] at he
        exact Or.inl (Except.error.inj he.symm)
    | jnull => exact Or.inr (Except.error.inj he).symm
    | jbool b => exact Or.inr (Except.error.inj he).symm
    | jnum m => exact Or.inr (Except.error.inj he).symm
    | jstr s => exact Or.inr (Except.error.inj he).symm
    | jarr xs => exact Or.inr (Except.error.inj he).symm

/-- C7 witness: the amended theorem applied to a failing device (500 with
body `boom`) and to a 200 device whose body lacks the `result` key. -/
theorem irc_codes_failure_modes_witness :
    TV.irc_codes dev500 cfgX
        = ([NetEvent.req (rcInfoRequest cfgX)],
           .error (.runtimeErrorStr (dev500 (rcInfoRequest cfgX)).body))
      ∧ TV.irc_codes devC7noResult cfgX
        = ([NetEvent.req (rcInfoRequest cfgX)], .error (.keyError "result")) :=
  ⟨(irc_codes_failure_modes dev500 cfgX).1 (by decide),
   (irc_codes_failure_modes devC7noResult cfgX).2.1 (.jobj []) (.keyError "result")
     (by decide) (by decide) (by decide)⟩

/-- When the command is in the mapping and the device accepts the dispatch,
`n` repetitions produce exactly `n` copies of the control request. -/
theorem sendRepeat_ok (dev : Device) (tv : TV) (code : String) (v : JValue) (n : Nat)
    (h : dictGet tv._irc_codes (.jstr code) = some v)
    (h200 : (dev (irccRequest tv (pyStr v))).status_code = 200) :
    sendRepeat dev tv code n
      = (List.replicate n (NetEvent.req (irccRequest tv (pyStr v))), .ok ()) := by
  induction n with
  | zero => simp [sendRepeat]
  | succ n ih =>
    have hsend : TV._send_irc_code dev tv code
        = ([NetEvent.req (irccRequest tv (pyStr v))], .ok ()) := by
      simp [TV._send_irc_code, h, sendResult, h200]
    simp [sendRepeat, hsend, ih, List.replicate_succ]

/-- C8: `volume_up` and `volume_down` accept a repeat count whose default
is 5; for every non-negative count `n`, when the command is in the mapping
and the device accepts the dispatches, each issues exactly `n` discrete
sequential dispatches of `VolumeUp` / `VolumeDown` — the trace is `n`
copies of the single-press control request, never one set-volume call. -/
theorem volume_methods_repeat_dispatch
    (dev : Device) (tv : TV) (vU vD : JValue) (n : Nat)
    (hU : dictGet tv._irc_codes (.jstr "VolumeUp") = some vU)
    (h200U : (dev (irccRequest tv (pyStr vU))).status_code = 200)
    (hD : dictGet tv._irc_codes (.jstr "VolumeDown") = some vD)
    (h200D : (dev (irccRequest tv (pyStr vD))).status_code = 200) :
    TV.volume_up dev tv (Int.ofNat n)
        = (List.replicate n (NetEvent.req (irccRequest tv (pyStr vU))), .ok ())
      ∧ TV.volume_down dev tv (Int.ofNat n)
        = (List.replicate n (NetEvent.req (irccRequest tv (pyStr vD))), .ok ())
      ∧ TV.volume_up_default dev tv = TV.volume_up dev tv 5
      ∧ TV.volume_down_default dev tv = TV.volume_down dev tv 5 := by
  refine ⟨?_, ?_, rfl, rfl⟩
  · simpa [TV.volume_up] using sendRepeat_ok dev tv "VolumeUp" vU n hU h200U
  · simpa [TV.volume_down] using sendRepeat_ok dev tv "VolumeDown" vD n hD h200D

/-- C8 witness: the theorem applied to the session `tvVol` (which maps both
volume commands) with repeat count 3 on an accepting device. -/
theorem volume_methods_repeat_dispatch_witness :
    TV.volume_up devOkEmpty tvVol (Int.ofNat 3)
        = (List.replicate 3 (NetEvent.req (irccRequest tvVol (pyStr (JValue.jstr "VU")))),
           .ok ())
      ∧ TV.volume_down devOkEmpty tvVol (Int.ofNat 3)
        = (List.replicate 3 (NetEvent.req (irccRequest tvVol (pyStr (JValue.jstr "VD")))),
           .ok ())
      ∧ TV.volume_up_default devOkEmpty tvVol = TV.volume_up devOkEmpty tvVol 5
      ∧ TV.volume_down_default devOkEmpty tvVol = TV.volume_down devOkEmpty tvVol 5 :=
  volume_methods_repeat_dispatch devOkEmpty tvVol (JValue.jstr "VU") (JValue.jstr "VD") 3
    (by decide) (by decide) (by decide) (by decide)
